import Mathlib

/-!
Verification of the mouse cut/trim operator of Blender-power-sequencer
(`src/operators/mouse_cut.py`), shallowly embedded in Lean 4.

The embedding keeps the source's names and structure: strips are records
with the fields the operator reads, the two classifier functions
`find_strips_to_cut` and `find_strips_to_trim` are translated line by
line, and the modal event handler is a pure step function that reports
the draw-handler operations it performs together with its return status.
Host operator calls (`sequencer.cut`, `power_sequencer.remove_gaps`,
`trim_strips`) are recorded as opaque `HostOp` values in execution order.
-/

namespace MouseCut

/-- A timeline strip, with exactly the host fields `mouse_cut.py` reads:
`channel`, `frame_final_start`, `frame_final_end`, `lock`. The `name`
field stands for the strip's host identity. -/
structure Strip where
  name : String
  channel : Int
  frame_final_start : Int
  frame_final_end : Int
  lock : Bool
  deriving DecidableEq, Repr

/-- The `select_mode` enum property of the operator: `cursor` or
`contextual` (the spec calls the latter `smart`). These are the only two
items of the enum. -/
inductive SelectMode
  | cursor
  | contextual
  deriving DecidableEq, Repr

/-- Modelled from the spec: `find_strips_mouse` lives in
`operators/utils/find_strips_mouse.py`, which is not under `src/`.
The spec describes its result as "the set of strips initially under the
mouse pointer" and states the invariant that "a strip with `lock=true` is
excluded from all selection/classification"; the `select_linked` flag
"always cut[s] linked strips if this is checked". So the model returns
the unlocked strips of the mouse channel whose final frame range contains
the mouse frame, extended, when `select_linked` is set and the mouse hit
something, by the unlocked strips of other channels sharing the exact
frame range of a hit strip (linked strips). -/
def find_strips_mouse (sequences : List Strip) (frame : Int) (channel : Int)
    (select_linked : Bool) : List Strip :=
  let strips := sequences.filter (fun s =>
    !s.lock && (s.channel == channel) &&
      decide (s.frame_final_start ≤ frame) && decide (frame ≤ s.frame_final_end))
  if select_linked && !strips.isEmpty then
    strips ++ sequences.filter (fun s =>
      !s.lock && (s.channel != channel) &&
        strips.any (fun m =>
          (s.frame_final_start == m.frame_final_start) &&
            (s.frame_final_end == m.frame_final_end)))
  else
    strips

/-- Embeds `find_strips_to_cut` (`mouse_cut.py` lines 219-237).
In `contextual` mode the strips under the mouse are collected first; the
whole-timeline scan runs when the mode is `cursor` or when the mode is
`contextual` and nothing was under the mouse (Python:
`if self.select_mode == 'cursor' or (not overlapping_strips and
self.select_mode == 'contextual')`). The scan's per-strip `continue` on
`s.lock` followed by an interval test is rendered as a filter, which
appends the same strips in the same order. -/
def find_strips_to_cut (sequences : List Strip) (select_mode : SelectMode)
    (trim_start : Int) (channel_start : Int) (select_linked : Bool) : List Strip :=
  let overlapping_strips :=
    if select_mode = SelectMode.contextual then
      find_strips_mouse sequences trim_start channel_start select_linked
    else
      []
  if select_mode = SelectMode.cursor ∨
      (overlapping_strips.isEmpty ∧ select_mode = SelectMode.contextual) then
    overlapping_strips ++ sequences.filter (fun s =>
      !s.lock && decide (s.frame_final_start ≤ trim_start) &&
        decide (trim_start ≤ s.frame_final_end))
  else
    overlapping_strips

/-- Embeds `find_strips_to_trim` (`mouse_cut.py` lines 239-265).
The range is normalized to `(min, max)` first; the under-mouse lookup
uses the RAW `self.trim_start`. The source's branch structure is
`if self.select_mode == 'contextual': to_trim.extend(under_mouse)` and
then `elif self.select_mode == 'cursor' or (not
self.initially_clicked_strips and self.select_mode == 'contextual'): …scan…`.
Because the `elif` is only reached when the mode is not `'contextual'`,
and the enum has exactly the two items, the scan runs exactly when the
mode is `cursor`: the second disjunct of the `elif` condition is
unreachable (and reads the attribute `initially_clicked_strips`, which is
defined nowhere in the class). The scan's two independent appends are
rendered as two filters with the branch conditions met in source order:
a locked strip is skipped, a strip contained in the normalized range goes
to `to_delete` (and `continue`s), a remaining strip containing either
bound of the range goes to `to_trim`. Returns `(to_trim, to_delete)`. -/
def find_strips_to_trim (sequences : List Strip) (select_mode : SelectMode)
    (trim_start_raw : Int) (trim_end_raw : Int) (channel_start : Int)
    (select_linked : Bool) : List Strip × List Strip :=
  let trim_start := min trim_start_raw trim_end_raw
  let trim_end := max trim_start_raw trim_end_raw
  let under_mouse := find_strips_mouse sequences trim_start_raw channel_start select_linked
  if select_mode = SelectMode.contextual then
    (under_mouse, [])
  else
    let to_delete := sequences.filter (fun s =>
      !s.lock && decide (trim_start ≤ s.frame_final_start) &&
        decide (trim_end ≥ s.frame_final_end))
    let to_trim := sequences.filter (fun s =>
      !s.lock &&
        !(decide (trim_start ≤ s.frame_final_start) &&
            decide (trim_end ≥ s.frame_final_end)) &&
        (decide (s.frame_final_start ≤ trim_start) && decide (trim_start ≤ s.frame_final_end) ||
          decide (s.frame_final_start ≤ trim_end) && decide (trim_end ≤ s.frame_final_end)))
    (to_trim, to_delete)

/-- The operator return statuses used by `invoke` and `modal`. -/
inductive Status
  | RUNNING_MODAL
  | PASS_THROUGH
  | FINISHED
  | CANCELLED
  deriving DecidableEq, Repr

/-- An input event as `modal` reads it: the event `type` (the source
compares it against the literals `'ESC'`, `'LEFTMOUSE'`, `'MOUSEMOVE'`,
`'RET'`, `'T'`; every other type is `other`), the event `value` string,
and the frame/channel that `get_frame_and_channel` computes from the
mouse position through the host's `region_to_view` mapping, abstracted
here into the event itself. -/
inductive EventType
  | ESC
  | LEFTMOUSE
  | MOUSEMOVE
  | RET
  | T
  | other (name : String)
  deriving DecidableEq, Repr

structure Event where
  type : EventType
  value : String
  frame : Int
  channel : Int
  deriving DecidableEq, Repr

/-- Embeds `get_frame_and_channel` (lines 319-325): the host view mapping
and rounding are abstracted into the event's `frame`/`channel` fields. -/
def get_frame_and_channel (event : Event) : Int × Int :=
  (event.frame, event.channel)

/-- An operation on the registered draw-callback handle:
`add` is `SpaceSequenceEditor.draw_handler_add` (in `draw_start`),
`remove` is `SpaceSequenceEditor.draw_handler_remove` (in `draw_stop`). -/
inductive HandlerOp
  | add
  | remove
  deriving DecidableEq, Repr

/-- The mutable operator/session state that `modal` touches, plus
`frame_current`, which stands for `context.scene.frame_current`.
`draw_handler` is the truthiness of `self.draw_handler` (the source
never clears it back to `None`). -/
structure ModalState where
  trim_start : Int
  channel_start : Int
  trim_end : Int
  is_trimming : Bool
  draw_handler : Bool
  frame_current : Int
  deriving DecidableEq, Repr

/-- Embeds `draw_stop` (lines 190-192): removes the handler if
`self.draw_handler` is truthy; the field itself is left unchanged, as in
the source. Returns the handler operations performed. -/
def draw_stop (st : ModalState) : List HandlerOp :=
  if st.draw_handler then [HandlerOp.remove] else []

/-- Embeds `draw_start` (lines 167-188): computes the draw arguments
(via `find_strips_to_trim`, irrelevant to the handler bookkeeping) and
registers a new draw handler, storing it in `self.draw_handler`. -/
def draw_start (st : ModalState) : ModalState × List HandlerOp :=
  ({ st with draw_handler := true }, [HandlerOp.add])

/-- Embeds `update_time_cursor` (lines 163-165): sets `self.trim_end`
to the frame under the mouse and moves `context.scene.frame_current`
to it. -/
def update_time_cursor (st : ModalState) (event : Event) : ModalState :=
  let f := (get_frame_and_channel event).1
  { st with trim_end := f, frame_current := f }

/-- Embeds `invoke` (lines 88-97): cancels host animation playback (a
host call with no session effect), runs `update_time_cursor`, then the
trim initialization of lines 146-149 (`trim_start`/`channel_start` from
the event, `trim_end := trim_start`, `is_trimming := True`), then
`draw_start`, and registers the modal handler, returning
`RUNNING_MODAL`. -/
def invoke (st : ModalState) (event : Event) : ModalState × List HandlerOp × Status :=
  let st := update_time_cursor st event
  let st := { st with
    trim_start := (get_frame_and_channel event).1,
    channel_start := (get_frame_and_channel event).2 }
  let st := { st with trim_end := st.trim_start, is_trimming := true }
  let sd := draw_start st
  (sd.1, sd.2, Status.RUNNING_MODAL)

/-- Embeds `modal` (lines 99-144), returning the updated state, the draw
handler operations performed in order, and the return status:
  * `ESC` returns `CANCELLED` at once (no other action);
  * `LEFTMOUSE` runs `trim_apply` (which dispatches to the
    separately-embedded `cut`/`trim` host-side effects, performs no
    handler operation, and clears `is_trimming`), then `draw_stop`,
    and returns `FINISHED`;
  * `MOUSEMOVE` runs `draw_stop`, `update_time_cursor`,
    `self.trim_end = context.scene.frame_current`, `draw_start`, and
    returns `PASS_THROUGH`;
  * `RET` or `T` with value `'PRESS'` runs `draw_stop` and returns
    `FINISHED`;
  * anything else returns `RUNNING_MODAL`. -/
def modal (st : ModalState) (event : Event) : ModalState × List HandlerOp × Status :=
  if event.type = EventType.ESC then
    (st, [], Status.CANCELLED)
  else if event.type = EventType.LEFTMOUSE then
    let st := { st with is_trimming := false }
    (st, draw_stop st, Status.FINISHED)
  else if event.type = EventType.MOUSEMOVE then
    let ops := draw_stop st
    let st := update_time_cursor st event
    let st := { st with trim_end := st.frame_current }
    let sd := draw_start st
    (sd.1, ops ++ sd.2, Status.PASS_THROUGH)
  else if (event.type = EventType.RET ∨ event.type = EventType.T) ∧ event.value = "PRESS" then
    (st, draw_stop st, Status.FINISHED)
  else
    (st, [], Status.RUNNING_MODAL)

/-- A host-side operation issued by `cut`/`trim`, recorded in execution
order. `setFrame f` stands for the assignment
`context.scene.frame_current = f`; `trimStrips` is the call to the
`trim_strips` utility; `removeGaps` is `bpy.ops.power_sequencer.remove_gaps()`;
`deselectAll` is `bpy.ops.sequencer.select_all(action='DESELECT')`;
`selectStrip s` is `s.select = True`; `sequencerCut f` is
`bpy.ops.sequencer.cut(frame=f, type='SOFT', side='BOTH')`. -/
inductive HostOp
  | trimStrips (trim_start trim_end : Int) (mode : SelectMode)
  | setFrame (frame : Int)
  | removeGaps
  | deselectAll
  | selectStrip (s : Strip)
  | sequencerCut (frame : Int)
  deriving DecidableEq, Repr

/-- Embeds `trim` (lines 208-217) as its list of host operations in
execution order: it calls `trim_strips`, then, if `self.remove_gaps` is
set AND the selection mode is `cursor`, sets the current frame to
`min(trim_start, trim_end)` and calls `remove_gaps`; otherwise it sets
the current frame to `trim_end`. -/
def trim (remove_gaps : Bool) (select_mode : SelectMode)
    (trim_start trim_end : Int) : List HostOp :=
  HostOp.trimStrips trim_start trim_end select_mode ::
    (if remove_gaps = true ∧ select_mode = SelectMode.cursor then
      [HostOp.setFrame (min trim_start trim_end), HostOp.removeGaps]
    else
      [HostOp.setFrame trim_end])

/-- The scene state `cut` touches. -/
structure Scene where
  frame_current : Int
  deriving DecidableEq, Repr

/-- Embeds `cut` (lines 194-206): selects the strips from
`find_strips_to_cut` after a deselect-all, saves
`context.scene.frame_current`, sets it to `self.trim_start`, calls the
host cut operator at that frame, and restores the saved frame. Returns
the final scene and the host operations in execution order. -/
def cut (sequences : List Strip) (select_mode : SelectMode)
    (trim_start : Int) (channel_start : Int) (select_linked : Bool)
    (scene : Scene) : Scene × List HostOp :=
  let to_select := find_strips_to_cut sequences select_mode trim_start channel_start select_linked
  let frame_current := scene.frame_current
  let scene1 : Scene := { scene with frame_current := trim_start }
  let ops := HostOp.deselectAll :: (to_select.map HostOp.selectStrip ++
    [HostOp.sequencerCut scene1.frame_current])
  let scene2 : Scene := { scene1 with frame_current := frame_current }
  (scene2, ops)

/-- The status contract stated by the spec for `invoke`/`modal`, written
from the claim's words (refinement reference for C8): `CANCELLED` on
`ESC`, `FINISHED` on `LEFTMOUSE` and on `RET`/`T` press, `PASS_THROUGH`
on `MOUSEMOVE`, `RUNNING_MODAL` on every other event. -/
def claimed_status (event : Event) : Status :=
  if event.type = EventType.ESC then Status.CANCELLED
  else if event.type = EventType.LEFTMOUSE then Status.FINISHED
  else if (event.type = EventType.RET ∨ event.type = EventType.T) ∧ event.value = "PRESS" then
    Status.FINISHED
  else if event.type = EventType.MOUSEMOVE then Status.PASS_THROUGH
  else Status.RUNNING_MODAL

/-! Concrete instances used by the counterexample and witness theorems. -/

/-- An unlocked strip on channel 2 spanning frames 0-6. -/
def stripAcross : Strip :=
  { name := "across", channel := 2, frame_final_start := 0, frame_final_end := 6, lock := false }

/-- An unlocked strip on channel 1 spanning frames 5-8. -/
def stripInside : Strip :=
  { name := "inside", channel := 1, frame_final_start := 5, frame_final_end := 8, lock := false }

/-- An unlocked strip on channel 1 spanning frames 4-6. -/
def stripUnderMouse : Strip :=
  { name := "under", channel := 1, frame_final_start := 4, frame_final_end := 6, lock := false }

/-- A locked strip on channel 1 spanning frames 0-10. -/
def stripLocked : Strip :=
  { name := "locked", channel := 1, frame_final_start := 0, frame_final_end := 10, lock := true }

/-- A session state in the middle of a modal interaction, with a draw
handler registered. -/
def midSessionState : ModalState :=
  { trim_start := 5, channel_start := 1, trim_end := 5, is_trimming := true,
    draw_handler := true, frame_current := 5 }

/-- An `ESC` key press event at frame 5, channel 1. -/
def escEvent : Event :=
  { type := EventType.ESC, value := "PRESS", frame := 5, channel := 1 }

/-! Theorems settling the claims. -/

/-- C1: the claim says that in smart (`contextual`) mode BOTH classifiers
fall back to the whole-timeline scan when no strip is under the mouse.
This holds for `find_strips_to_cut` but fails for `find_strips_to_trim`:
with a single unlocked strip on channel 2 spanning frames 0-6, the mouse
at frame 5 on channel 1 (so nothing under the mouse), and a trim range of
5-10, `find_strips_to_cut` falls back and returns the strip, but
`find_strips_to_trim` returns two empty sets even though the strip
overlaps the range — its fallback scan is unreachable in the source. -/
theorem mouse_cut_C1_trim_has_no_fallback :
    find_strips_to_cut [stripAcross] SelectMode.contextual 5 1 false = [stripAcross] ∧
    find_strips_to_trim [stripAcross] SelectMode.contextual 5 10 1 false = ([], []) := by
  decide

/-- C2: the claim says the draw-callback handle is deregistered on every
exit path, including cancel via `ESC`. It is not: with a draw handler
registered (so that `draw_stop` would emit a remove), `modal` on `ESC`
returns `CANCELLED` after performing no handler operation at all. -/
theorem mouse_cut_C2_esc_skips_handler_removal :
    draw_stop midSessionState = [HandlerOp.remove] ∧
    (modal midSessionState escEvent).2.1 = [] ∧
    (modal midSessionState escEvent).2.2 = Status.CANCELLED := by
  decide

/-- C9: `trim` calls the `remove_gaps` host operator exactly when the
`remove_gaps` flag is set and the mode is `cursor`; in `contextual` mode
it never calls `remove_gaps` even with the flag set and instead sets the
current frame to `trim_end`; in the gap-removing branch it sets the
current frame to `min(trim_start, trim_end)` before the call. -/
theorem mouse_cut_C9_remove_gaps_gating
    (g : Bool) (m : SelectMode) (a b : Int) :
    (HostOp.removeGaps ∈ trim g m a b ↔ (g = true ∧ m = SelectMode.cursor)) ∧
    (m = SelectMode.contextual →
      trim g m a b = [HostOp.trimStrips a b m, HostOp.setFrame b]) ∧
    (g = true → m = SelectMode.cursor →
      trim g m a b =
        [HostOp.trimStrips a b m, HostOp.setFrame (min a b), HostOp.removeGaps]) := by
  cases g <;> cases m <;> simp [trim]

/-- C9 witness: `mouse_cut_C9_remove_gaps_gating` instantiated at
concrete arguments discharging each hypothesis: the contextual branch
with the flag set, and the cursor branch with the flag set. -/
theorem mouse_cut_C9_witness :
    trim true SelectMode.contextual 7 3 =
      [HostOp.trimStrips 7 3 SelectMode.contextual, HostOp.setFrame 3] ∧
    trim true SelectMode.cursor 7 3 =
      [HostOp.trimStrips 7 3 SelectMode.cursor, HostOp.setFrame (min 7 3),
        HostOp.removeGaps] :=
  ⟨(mouse_cut_C9_remove_gaps_gating true SelectMode.contextual 7 3).2.1 rfl,
   (mouse_cut_C9_remove_gaps_gating true SelectMode.cursor 7 3).2.2 rfl rfl⟩

/-- C10: `cut` restores `context.scene.frame_current`: the frame after
the call equals the frame before it, and the host cut operator is invoked
at `trim_start`. -/
theorem mouse_cut_C10_frame_restored
    (sequences : List Strip) (mode : SelectMode) (ts ch : Int) (linked : Bool)
    (scene : Scene) :
    (cut sequences mode ts ch linked scene).1.frame_current = scene.frame_current ∧
    HostOp.sequencerCut ts ∈ (cut sequences mode ts ch linked scene).2 := by
  refine ⟨rfl, ?_⟩
  simp [cut]

/-- A locked strip is never returned by `find_strips_mouse`: both the
under-mouse filter and the linked-strip filter test `not s.lock`. -/
theorem locked_not_in_find_strips_mouse
    (sequences : List Strip) (f ch : Int) (linked : Bool) (s : Strip)
    (hlock : s.lock = true) :
    s ∉ find_strips_mouse sequences f ch linked := by
  intro hmem
  simp only [find_strips_mouse] at hmem
  split at hmem
  · rcases List.mem_append.mp hmem with h | h <;>
      simp [List.mem_filter, hlock] at h
  · simp [List.mem_filter, hlock] at hmem

/-- Evaluation of `find_strips_to_trim` in `cursor` mode: the
contextual branch is skipped and the two scan filters are returned. -/
theorem find_strips_to_trim_cursor_eq
    (sequences : List Strip) (ts te ch : Int) (linked : Bool) :
    find_strips_to_trim sequences SelectMode.cursor ts te ch linked =
      (sequences.filter (fun s =>
          !s.lock &&
            !(decide (min ts te ≤ s.frame_final_start) &&
                decide (max ts te ≥ s.frame_final_end)) &&
            (decide (s.frame_final_start ≤ min ts te) &&
                decide (min ts te ≤ s.frame_final_end) ||
              decide (s.frame_final_start ≤ max ts te) &&
                decide (max ts te ≤ s.frame_final_end))),
        sequences.filter (fun s =>
          !s.lock && decide (min ts te ≤ s.frame_final_start) &&
            decide (max ts te ≥ s.frame_final_end))) := rfl

/-- Evaluation of `find_strips_to_trim` in `contextual` mode: the trim
set is whatever is under the mouse and the delete set is empty. -/
theorem find_strips_to_trim_contextual_eq
    (sequences : List Strip) (ts te ch : Int) (linked : Bool) :
    find_strips_to_trim sequences SelectMode.contextual ts te ch linked =
      (find_strips_mouse sequences ts ch linked, []) := rfl

/-- Evaluation of `find_strips_to_cut` in `contextual` mode: the strips
under the mouse, extended by the whole-timeline scan exactly when
nothing was under the mouse. -/
theorem find_strips_to_cut_contextual_eq
    (sequences : List Strip) (ts ch : Int) (linked : Bool) :
    find_strips_to_cut sequences SelectMode.contextual ts ch linked =
      (if (find_strips_mouse sequences ts ch linked).isEmpty then
        find_strips_mouse sequences ts ch linked ++ sequences.filter (fun s =>
          !s.lock && decide (s.frame_final_start ≤ ts) && decide (ts ≤ s.frame_final_end))
      else
        find_strips_mouse sequences ts ch linked) := by
  by_cases he : (find_strips_mouse sequences ts ch linked).isEmpty = true
  · simp [find_strips_to_cut, he]
  · simp [find_strips_to_cut, he]

/-- C3: a strip whose `lock` field is true never appears in any output
set of the classifier: not in the cut set of `find_strips_to_cut`, and
not in the trim set or the delete set of `find_strips_to_trim`, for
every strip list, frame range, channel and selection mode. -/
theorem mouse_cut_C3_locked_excluded
    (sequences : List Strip) (mode : SelectMode) (ts te ch : Int) (linked : Bool)
    (s : Strip) (hlock : s.lock = true) :
    s ∉ find_strips_to_cut sequences mode ts ch linked ∧
    s ∉ (find_strips_to_trim sequences mode ts te ch linked).1 ∧
    s ∉ (find_strips_to_trim sequences mode ts te ch linked).2 := by
  have hfsm : ∀ f, s ∉ find_strips_mouse sequences f ch linked := fun f =>
    locked_not_in_find_strips_mouse sequences f ch linked s hlock
  cases mode
  case cursor =>
    refine ⟨?_, ?_, ?_⟩ <;>
      simp [find_strips_to_cut, find_strips_to_trim, List.mem_filter,
        List.mem_append, hlock]
  case contextual =>
    refine ⟨?_, ?_, ?_⟩
    · rw [find_strips_to_cut_contextual_eq]
      by_cases he : (find_strips_mouse sequences ts ch linked).isEmpty = true
      · rw [if_pos he]
        intro hmem
        rcases List.mem_append.mp hmem with h | h
        · exact hfsm ts h
        · have hp := (List.mem_filter.mp h).2
          rw [hlock] at hp
          simp at hp
      · rw [if_neg he]
        exact hfsm ts
    · rw [find_strips_to_trim_contextual_eq]
      exact hfsm ts
    · rw [find_strips_to_trim_contextual_eq]
      exact List.not_mem_nil s

/-- C3 witness: `mouse_cut_C3_locked_excluded` applied to a concrete
locked strip, a concrete frame range and the `cursor` mode. -/
theorem mouse_cut_C3_witness :
    stripLocked ∉ find_strips_to_cut [stripLocked] SelectMode.cursor 5 1 false ∧
    stripLocked ∉ (find_strips_to_trim [stripLocked] SelectMode.cursor 5 8 1 false).1 ∧
    stripLocked ∉ (find_strips_to_trim [stripLocked] SelectMode.cursor 5 8 1 false).2 :=
  mouse_cut_C3_locked_excluded [stripLocked] SelectMode.cursor 5 8 1 false stripLocked rfl

/-- C4 counterexample: the claim quantifies over every selection mode,
but in `contextual` mode a fully-contained unlocked strip under the
mouse is placed in the trim set, not the delete set: the strip spanning
frames 5-8 on channel 1 is fully inside `[min(5,10), max(5,10)]`, yet
`find_strips_to_trim` puts it in the trim set and the delete set stays
empty. -/
theorem mouse_cut_C4_counterexample :
    stripInside.lock = false ∧
    min (5 : Int) 10 ≤ stripInside.frame_final_start ∧
    stripInside.frame_final_end ≤ max (5 : Int) 10 ∧
    stripInside ∉ (find_strips_to_trim [stripInside] SelectMode.contextual 5 10 1 false).2 ∧
    stripInside ∈ (find_strips_to_trim [stripInside] SelectMode.contextual 5 10 1 false).1 := by
  decide

/-- C4 as amended: in `cursor` selection mode, every unlocked strip whose
interval lies fully inside the normalized trim range is placed in the
delete set and not in the trim set. -/
theorem mouse_cut_C4_cursor_contained_deleted
    (sequences : List Strip) (ts te ch : Int) (linked : Bool) (s : Strip)
    (hmem : s ∈ sequences) (hlock : s.lock = false)
    (h1 : min ts te ≤ s.frame_final_start) (h2 : s.frame_final_end ≤ max ts te) :
    s ∈ (find_strips_to_trim sequences SelectMode.cursor ts te ch linked).2 ∧
    s ∉ (find_strips_to_trim sequences SelectMode.cursor ts te ch linked).1 := by
  rw [find_strips_to_trim_cursor_eq]
  constructor
  · refine List.mem_filter.mpr ⟨hmem, ?_⟩
    simp [hlock]
    omega
  · intro hmem1
    have hp := (List.mem_filter.mp hmem1).2
    simp [hlock] at hp
    omega

/-- C4 witness: `mouse_cut_C4_cursor_contained_deleted` applied to the
concrete strip spanning frames 5-8 with the trim range 5-10. -/
theorem mouse_cut_C4_witness :
    stripInside ∈ (find_strips_to_trim [stripInside] SelectMode.cursor 5 10 1 false).2 ∧
    stripInside ∉ (find_strips_to_trim [stripInside] SelectMode.cursor 5 10 1 false).1 :=
  mouse_cut_C4_cursor_contained_deleted [stripInside] 5 10 1 false stripInside
    (by decide) rfl (by decide) (by decide)

/-- C5 counterexample: the claim quantifies over every selection mode,
but in `contextual` mode a boundary-overlapping strip that is not under
the mouse is classified nowhere: the unlocked strip spanning frames 0-6
on channel 2 contains the lower bound of `[min(5,10), max(5,10)]` and is
not fully contained, yet with the mouse on channel 1 the trim set of
`find_strips_to_trim` does not contain it. -/
theorem mouse_cut_C5_counterexample :
    stripAcross.lock = false ∧
    ¬(min (5 : Int) 10 ≤ stripAcross.frame_final_start ∧
        stripAcross.frame_final_end ≤ max (5 : Int) 10) ∧
    (stripAcross.frame_final_start ≤ min (5 : Int) 10 ∧
        min (5 : Int) 10 ≤ stripAcross.frame_final_end) ∧
    stripAcross ∉ (find_strips_to_trim [stripAcross] SelectMode.contextual 5 10 1 false).1 := by
  decide

/-- C5 as amended: in `cursor` selection mode, every unlocked strip that
is not fully contained in the normalized trim range but whose interval
contains at least one of the two range bounds is placed in the trim
set. -/
theorem mouse_cut_C5_cursor_boundary_trimmed
    (sequences : List Strip) (ts te ch : Int) (linked : Bool) (s : Strip)
    (hmem : s ∈ sequences) (hlock : s.lock = false)
    (hnc : ¬(min ts te ≤ s.frame_final_start ∧ s.frame_final_end ≤ max ts te))
    (hb : s.frame_final_start ≤ min ts te ∧ min ts te ≤ s.frame_final_end ∨
        s.frame_final_start ≤ max ts te ∧ max ts te ≤ s.frame_final_end) :
    s ∈ (find_strips_to_trim sequences SelectMode.cursor ts te ch linked).1 := by
  rw [find_strips_to_trim_cursor_eq]
  refine List.mem_filter.mpr ⟨hmem, ?_⟩
  simp [hlock]
  omega

/-- C5 witness: `mouse_cut_C5_cursor_boundary_trimmed` applied to the
concrete strip spanning frames 0-6 with the trim range 5-10. -/
theorem mouse_cut_C5_witness :
    stripAcross ∈ (find_strips_to_trim [stripAcross] SelectMode.cursor 5 10 1 false).1 :=
  mouse_cut_C5_cursor_boundary_trimmed [stripAcross] 5 10 1 false stripAcross
    (by decide) rfl (by decide) (Or.inl (by decide))

/-- C6 counterexample: the claim quantifies over every selection mode,
but in `contextual` mode the under-mouse lookup uses the raw
`trim_start`, so swapping the two frames changes the result: with the
unlocked strip spanning frames 4-6 on channel 1 and the mouse channel 1,
the range 5-10 selects the strip into the trim set while the swapped
range 10-5 selects nothing. -/
theorem mouse_cut_C6_counterexample :
    find_strips_to_trim [stripUnderMouse] SelectMode.contextual 5 10 1 false ≠
      find_strips_to_trim [stripUnderMouse] SelectMode.contextual 10 5 1 false := by
  decide

/-- C6 as amended: in `cursor` selection mode, swapping `trim_start` and
`trim_end` yields identical classification results from
`find_strips_to_trim` (both the trim set and the delete set), because
the scan only uses the normalized `(min, max)` range. -/
theorem mouse_cut_C6_cursor_swap_invariant
    (sequences : List Strip) (ts te ch : Int) (linked : Bool) :
    find_strips_to_trim sequences SelectMode.cursor ts te ch linked =
      find_strips_to_trim sequences SelectMode.cursor te ts ch linked := by
  rw [find_strips_to_trim_cursor_eq, find_strips_to_trim_cursor_eq,
    min_comm ts te, max_comm ts te]

/-- C7: in `cursor` selection mode, `find_strips_to_cut` returns exactly
the unlocked strips whose interval contains the start frame: membership
in the cut set is equivalent to being an unlocked listed strip with
`frame_final_start ≤ trim_start ≤ frame_final_end`. -/
theorem mouse_cut_C7_cursor_cut_exact
    (sequences : List Strip) (ts ch : Int) (linked : Bool) (s : Strip) :
    s ∈ find_strips_to_cut sequences SelectMode.cursor ts ch linked ↔
      s ∈ sequences ∧ s.lock = false ∧
        s.frame_final_start ≤ ts ∧ ts ≤ s.frame_final_end := by
  simp [find_strips_to_cut, List.mem_filter, and_assoc]

/-- C8: for every state and input event, `invoke` returns
`RUNNING_MODAL`, and `modal` returns exactly the status the claim lists:
`CANCELLED` on `ESC`, `FINISHED` on `LEFTMOUSE` and on `RET`/`T` press,
`PASS_THROUGH` on `MOUSEMOVE`, and `RUNNING_MODAL` on every other
event. -/
theorem mouse_cut_C8_status_contract (st : ModalState) (event : Event) :
    (invoke st event).2.2 = Status.RUNNING_MODAL ∧
    (modal st event).2.2 = claimed_status event := by
  refine ⟨rfl, ?_⟩
  rcases event with ⟨t, v, f, c⟩
  cases t <;> simp [modal, claimed_status] <;> split_ifs <;> rfl

end MouseCut
